/-
Verification of the whisper native-messaging host (whisper_host.py /
whisper_host_utils.py) against its natural-language specification.

The development is a shallow embedding of the Python source:
  * JSON values are modelled by `JVal` (numbers restricted to integers: no
    message exercised by the spec carries a float);
  * byte streams are `List Nat` (each element < 256 where it matters);
  * the on-disk state is an explicit `Fs` record threaded through the
    persistence functions;
  * nondeterministic inputs of the source (wall-clock timestamp, random
    token) are explicit parameters (fields of `Env`);
  * external collaborators (the OS "open folder" call, base64 decode, the
    av audio decoder and the whisper model) are oracle functions in `Env`,
    exactly the parts the spec declares out of scope;
  * Python exceptions are `Except PyExc`.
-/
import Mathlib

namespace WhisperHost

/-- Embedded JSON / Python value (the payloads of json.loads / json.dumps).
Numbers are restricted to integers; no claim exercises floats. -/
inductive JVal where
  | null
  | bool (b : Bool)
  | num (n : Int)
  | str (s : String)
  | arr (elems : List JVal)
  | obj (fields : List (String × JVal))

/-- Python truthiness (`if value:`) for the JSON values the host handles. -/
def truthy : JVal → Bool
  | .null => false
  | .bool b => b
  | .num n => n != 0
  | .str s => s != ""
  | .arr xs => !xs.isEmpty
  | .obj kvs => !kvs.isEmpty

/-- `dict.get(k)`: the value of the last binding of `k` (later JSON keys
override earlier ones). -/
def pyGet (kvs : List (String × JVal)) (k : String) : Option JVal :=
  (kvs.reverse.find? (fun kv => kv.1 == k)).map (·.2)

/-- `dict.get(k, d)`. -/
def pyGetD (kvs : List (String × JVal)) (k : String) (d : JVal) : JVal :=
  (pyGet kvs k).getD d

/-- `k in dict`. -/
def hasKey (kvs : List (String × JVal)) (k : String) : Bool :=
  kvs.any (fun kv => kv.1 == k)

/-- `dict.get(k)` when a string is expected; non-string values map to
`none` (the claims exercise only string-or-absent fields). -/
def pyGetStr (kvs : List (String × JVal)) (k : String) : Option String :=
  match pyGet kvs k with
  | some (.str s) => some s
  | _ => none

/-- Truthiness of an optional value (`None` is falsy). -/
def truthyOpt : Option JVal → Bool
  | none => false
  | some v => truthy v

/-- Python truthiness of an optional string argument (`None` and `""` are
falsy). -/
def truthyStr : Option String → Bool
  | none => false
  | some s => s != ""

/-! ## Python exceptions -/

/-- The exception values the host can raise; `excStr e` is `f"{e}"`. -/
inductive PyExc where
  | valueError (m : String)
  | fileNotFoundError (m : String)
  | runtimeError (m : String)
  | typeError (m : String)
  | attributeError (m : String)
  | osError (m : String)
  | structError
  | unicodeDecodeError

/-- `f"{exc}"`: the human-readable message of an exception. -/
def excStr : PyExc → String
  | .valueError m => m
  | .fileNotFoundError m => m
  | .runtimeError m => m
  | .typeError m => m
  | .attributeError m => m
  | .osError m => m
  | .structError => "unpack requires a buffer of 4 bytes"
  | .unicodeDecodeError => "invalid start byte"

/-! ## Byte-level helpers: little-endian u32, UTF-8, base64 -/

/-- `struct.pack("<I", n)`: 4 little-endian bytes. -/
def toLE4 (n : Nat) : List Nat :=
  [n % 256, n / 256 % 256, n / 65536 % 256, n / 16777216 % 256]

/-- `struct.unpack("<I", b)[0]` on an exactly-4-byte buffer. -/
def fromLE4 : List Nat → Nat
  | [b0, b1, b2, b3] => b0 + 256 * (b1 + 256 * (b2 + 256 * b3))
  | _ => 0

/-- Strict UTF-8 decoding (Python `bytes.decode("utf-8")`): rejects
continuation errors, overlong forms, surrogates and values above U+10FFFF. -/
def utf8DecodeAux : List Nat → List Char → Option (List Char)
  | [], acc => some acc.reverse
  | b :: rest, acc =>
    if b < 0x80 then
      utf8DecodeAux rest (Char.ofNat b :: acc)
    else if b < 0xC2 then none
    else if b < 0xE0 then
      match rest with
      | c1 :: rest' =>
        if 0x80 ≤ c1 ∧ c1 < 0xC0 then
          utf8DecodeAux rest' (Char.ofNat ((b - 0xC0) * 64 + (c1 - 0x80)) :: acc)
        else none
      | _ => none
    else if b < 0xF0 then
      match rest with
      | c1 :: c2 :: rest' =>
        let lo1 := if b = 0xE0 then 0xA0 else 0x80
        let hi1 := if b = 0xED then 0xA0 else 0xC0
        if (lo1 ≤ c1 ∧ c1 < hi1) ∧ (0x80 ≤ c2 ∧ c2 < 0xC0) then
          utf8DecodeAux rest'
            (Char.ofNat ((b - 0xE0) * 4096 + (c1 - 0x80) * 64 + (c2 - 0x80)) :: acc)
        else none
      | _ => none
    else if b < 0xF5 then
      match rest with
      | c1 :: c2 :: c3 :: rest' =>
        let lo1 := if b = 0xF0 then 0x90 else 0x80
        let hi1 := if b = 0xF4 then 0x90 else 0xC0
        if (lo1 ≤ c1 ∧ c1 < hi1) ∧ (0x80 ≤ c2 ∧ c2 < 0xC0) ∧ (0x80 ≤ c3 ∧ c3 < 0xC0) then
          utf8DecodeAux rest'
            (Char.ofNat ((b - 0xF0) * 262144 + (c1 - 0x80) * 4096 +
              (c2 - 0x80) * 64 + (c3 - 0x80)) :: acc)
        else none
      | _ => none
    else none

/-- `bytes.decode("utf-8")`, strict. -/
def utf8Decode (bs : List Nat) : Option String :=
  (utf8DecodeAux bs []).map (fun cs => ⟨cs⟩)

/-- UTF-8 encoding of one character. -/
def utf8EncodeChar (c : Char) : List Nat :=
  let n := c.toNat
  if n < 0x80 then [n]
  else if n < 0x800 then [0xC0 + n / 64, 0x80 + n % 64]
  else if n < 0x10000 then [0xE0 + n / 4096, 0x80 + n / 64 % 64, 0x80 + n % 64]
  else [0xF0 + n / 262144, 0x80 + n / 4096 % 64, 0x80 + n / 64 % 64, 0x80 + n % 64]

/-- `s.encode("utf-8")`. -/
def utf8Encode (s : String) : List Nat :=
  s.data.flatMap utf8EncodeChar

/-- The base64 alphabet (`base64.b64encode`). -/
def b64Char (n : Nat) : Char :=
  if n < 26 then Char.ofNat (65 + n)
  else if n < 52 then Char.ofNat (97 + (n - 26))
  else if n < 62 then Char.ofNat (48 + (n - 52))
  else if n = 62 then Char.ofNat 43
  else Char.ofNat 47

/-- `base64.b64encode(bs).decode("ascii")`. -/
def b64encode : List Nat → String
  | [] => ""
  | [a] =>
    ⟨[b64Char (a / 4), b64Char (a % 4 * 16), Char.ofNat 61, Char.ofNat 61]⟩
  | [a, b] =>
    ⟨[b64Char (a / 4), b64Char (a % 4 * 16 + b / 16), b64Char (b % 16 * 4),
      Char.ofNat 61]⟩
  | a :: b :: c :: rest =>
    (⟨[b64Char (a / 4), b64Char (a % 4 * 16 + b / 16),
       b64Char (b % 16 * 4 + c / 64), b64Char (c % 64)]⟩ : String) ++ b64encode rest

/-! ## Paths and the filesystem model -/

/-- A filesystem path as its list of components (`pathlib.PurePath.parts`). -/
abbrev FsPath := List String

/-- Split a character list on `/`. -/
def splitSlash : List Char → List Char → List String
  | [], acc => [⟨acc.reverse⟩]
  | '/' :: rest, acc => (⟨acc.reverse⟩ : String) :: splitSlash rest []
  | c :: rest, acc => splitSlash rest (c :: acc)

/-- `pathlib.Path(s)`: split on the separator, dropping empty components
(posix paths; drive/anchor handling is not modelled). -/
def strToPath (s : String) : FsPath :=
  (splitSlash s.data []).filter (fun c => c != "")

/-- `str(path)` for the paths the host builds (posix separator). -/
def pathToStr : FsPath → String
  | [] => ""
  | [x] => x
  | x :: rest => x ++ "/" ++ pathToStr rest

/-- Contents of one file in the model. `jsonl` holds the already-parsed
records of a `history.jsonl` file (one JSON document per line on disk);
`jsonf` a whole-file JSON document (`tab.json`). -/
inductive FileData where
  | bin (bs : List Nat)
  | txt (s : String)
  | jsonl (entries : List JVal)
  | jsonf (v : JVal)

/-- The host-owned on-disk state under all roots. -/
structure Fs where
  dirs : List FsPath
  files : List (FsPath × FileData)

/-- The empty filesystem. -/
def fsEmpty : Fs := ⟨[], []⟩

/-- `Path.mkdir(parents=True, exist_ok=True)`: record the directory and all
its ancestors. -/
def fsMkdirP (p : FsPath) (fs : Fs) : Fs :=
  { fs with dirs := ((List.range p.length).map (fun i => p.take (i + 1))) ++ fs.dirs }

/-- Write (create or overwrite) one file. Newest binding first; reads see
the newest. -/
def fsWrite (p : FsPath) (d : FileData) (fs : Fs) : Fs :=
  { fs with files := (p, d) :: fs.files }

/-- Read one file, if present. -/
def fsRead (p : FsPath) (fs : Fs) : Option FileData :=
  (fs.files.find? (fun e => e.1 == p)).map (·.2)

/-- `path.is_file()`. -/
def fsIsFile (fs : Fs) (p : FsPath) : Bool :=
  (fsRead p fs).isSome

/-- `path.exists()`. -/
def fsExists (fs : Fs) (p : FsPath) : Bool :=
  fsIsFile fs p || fs.dirs.any (fun d => d == p)

/-- Append one record to a `jsonl` file (`open(path, "a")` followed by one
`json.dump` line); creates the file when absent. -/
def fsAppendJsonl (p : FsPath) (entry : JVal) (fs : Fs) : Fs :=
  let old := match fsRead p fs with
    | some (.jsonl es) => es
    | _ => []
  fsWrite p (.jsonl (old ++ [entry])) fs

/-! ## JSON parsing (json.loads)

Numbers are restricted to integers (a fraction or exponent makes the parse
fail); no message of the protocol carries a float. -/

/-- JSON whitespace. -/
def jsonWsChar (c : Char) : Bool :=
  c = ' ' || c = '\t' || c = '\n' || c = '\r'

/-- Hex digit value. -/
def hexVal (c : Char) : Option Nat :=
  if '0' ≤ c ∧ c ≤ '9' then some (c.toNat - 48)
  else if 'a' ≤ c ∧ c ≤ 'f' then some (c.toNat - 87)
  else if 'A' ≤ c ∧ c ≤ 'F' then some (c.toNat - 70)
  else none

/-- Parse the remainder of a JSON string literal (after the opening quote). -/
def parseJStr : List Char → List Char → Option (String × List Char)
  | [], _ => none
  | '"' :: rest, acc => some (⟨acc.reverse⟩, rest)
  | '\\' :: e :: rest, acc =>
    if e = '"' ∨ e = '\\' ∨ e = '/' then parseJStr rest (e :: acc)
    else if e = 'b' then parseJStr rest (Char.ofNat 8 :: acc)
    else if e = 'f' then parseJStr rest (Char.ofNat 12 :: acc)
    else if e = 'n' then parseJStr rest ('\n' :: acc)
    else if e = 'r' then parseJStr rest ('\r' :: acc)
    else if e = 't' then parseJStr rest ('\t' :: acc)
    else if e = 'u' then
      match rest with
      | h1 :: h2 :: h3 :: h4 :: rest' =>
        match hexVal h1, hexVal h2, hexVal h3, hexVal h4 with
        | some a, some b, some c, some d =>
          let code := ((a * 16 + b) * 16 + c) * 16 + d
          -- surrogate escapes (and pairs) are not modelled
          if 0xD800 ≤ code ∧ code < 0xE000 then none
          else parseJStr rest' (Char.ofNat code :: acc)
        | _, _, _, _ => none
      | _ => none
    else none
  | [_] , _ => none
  | c :: rest, acc =>
    if c.toNat < 0x20 then none else parseJStr rest (c :: acc)

/-- Digits to a natural number. -/
def natOfDigits (ds : List Char) : Nat :=
  ds.foldl (fun a c => a * 10 + (c.toNat - 48)) 0

/-- Parse an unsigned JSON integer (leading-zero rule of the JSON grammar;
a following `.`, `e` or `E` — a float — is not modelled and fails). -/
def parseJNatPart (cs : List Char) : Option (Nat × List Char) :=
  match cs with
  | '0' :: r =>
    match r with
    | c :: _ => if c.isDigit ∨ c = '.' ∨ c = 'e' ∨ c = 'E' then none else some (0, r)
    | [] => some (0, [])
  | c :: _ =>
    if c.isDigit then
      let ds := cs.takeWhile Char.isDigit
      let r := cs.dropWhile Char.isDigit
      match r with
      | c2 :: _ => if c2 = '.' ∨ c2 = 'e' ∨ c2 = 'E' then none else some (natOfDigits ds, r)
      | [] => some (natOfDigits ds, [])
    else none
  | [] => none

/-- Parse a JSON number (integer). -/
def parseJNum (cs : List Char) : Option (JVal × List Char) :=
  match cs with
  | '-' :: r => (parseJNatPart r).map (fun p => (.num (-(p.1 : Int)), p.2))
  | _ => (parseJNatPart cs).map (fun p => (.num (p.1 : Int), p.2))

/-- Parser state: a single value, the items of an array, or the fields of
an object. -/
inductive PTgt where
  | val
  | arrItems (acc : List JVal)
  | objItems (acc : List (String × JVal))

/-- Fuel-indexed recursive-descent JSON parser. -/
def parseJ : Nat → PTgt → List Char → Option (JVal × List Char)
  | 0, _, _ => none
  | fuel + 1, .val, cs =>
    match cs.dropWhile jsonWsChar with
    | 'n' :: 'u' :: 'l' :: 'l' :: r => some (.null, r)
    | 't' :: 'r' :: 'u' :: 'e' :: r => some (.bool true, r)
    | 'f' :: 'a' :: 'l' :: 's' :: 'e' :: r => some (.bool false, r)
    | '"' :: r => (parseJStr r []).map (fun p => (.str p.1, p.2))
    | '[' :: r =>
      match r.dropWhile jsonWsChar with
      | ']' :: r2 => some (.arr [], r2)
      | _ => parseJ fuel (.arrItems []) r
    | '{' :: r =>
      match r.dropWhile jsonWsChar with
      | '}' :: r2 => some (.obj [], r2)
      | _ => parseJ fuel (.objItems []) r
    | rest => parseJNum rest
  | fuel + 1, .arrItems acc, cs =>
    match parseJ fuel .val cs with
    | none => none
    | some (v, r) =>
      match r.dropWhile jsonWsChar with
      | ',' :: r2 => parseJ fuel (.arrItems (acc ++ [v])) r2
      | ']' :: r2 => some (.arr (acc ++ [v]), r2)
      | _ => none
  | fuel + 1, .objItems acc, cs =>
    match cs.dropWhile jsonWsChar with
    | '"' :: r =>
      match parseJStr r [] with
      | none => none
      | some (k, r2) =>
        match r2.dropWhile jsonWsChar with
        | ':' :: r3 =>
          match parseJ fuel .val r3 with
          | none => none
          | some (v, r4) =>
            match r4.dropWhile jsonWsChar with
            | ',' :: r5 => parseJ fuel (.objItems (acc ++ [(k, v)])) r5
            | '}' :: r5 => some (.obj (acc ++ [(k, v)]), r5)
            | _ => none
        | _ => none
    | _ => none

/-- `json.loads(s)`: parse one document, allow trailing whitespace only.
The fuel `2 * s.length + 2` dominates the parser's recursion depth. -/
def jsonParse (s : String) : Option JVal :=
  match parseJ (2 * s.length + 2) .val s.data with
  | some (v, r) => if (r.dropWhile jsonWsChar).isEmpty then some v else none
  | none => none

/-! ## Folder-name sanitization (_build_folder_prefix) -/

/-- Python `str.strip()` whitespace (the ASCII part; non-ASCII Unicode
whitespace is not modelled). This is also the ASCII part of `\s`. -/
def pyWsChar (c : Char) : Bool :=
  c = ' ' || c = '\t' || c = '\n' || c = '\r' || c = '\x0b' || c = '\x0c'

/-- Strip characters satisfying `p` from both ends
(`str.strip` / `str.strip(chars)`). -/
def stripEnds (p : Char → Bool) (cs : List Char) : List Char :=
  ((cs.dropWhile p).reverse.dropWhile p).reverse

/-- Python `str.strip()` as a String function. -/
def pyStrip (s : String) : String :=
  ⟨stripEnds pyWsChar s.data⟩

/-- The ASCII part of the regex class `\w` (alphanumerics and underscore;
non-ASCII word characters are not modelled). -/
def isWordChar (c : Char) : Bool :=
  c.isAlphanum || c = '_'

/-- Characters kept by `re.sub(r'[^\w\s-]', '', ...)`. -/
def keepChar (c : Char) : Bool :=
  isWordChar c || pyWsChar c || c = '-'

/-- The character set of `str.strip('.-_')`. -/
def dotDashUnder (c : Char) : Bool :=
  c = '.' || c = '-' || c = '_'

/-- `re.sub(r'\s+', ' ', ...)`: replace each maximal whitespace run by one
space. The flag records whether the previous character was whitespace. -/
def collapseWsAux : List Char → Bool → List Char
  | [], _ => []
  | c :: rest, prev =>
    if pyWsChar c then
      if prev then collapseWsAux rest true
      else ' ' :: collapseWsAux rest true
    else c :: collapseWsAux rest false

/-- The maximum folder-prefix length (MAX_PREFIX_CHARS). -/
def maxPfxChars : Nat := 60

/-- The cleaning pipeline of the sanitizer, applied to the stripped title:
remove non-word/space/hyphen characters, collapse whitespace and strip,
strip leading/trailing `.`/`-`/`_`, truncate to 60 and strip. -/
def cleanTitle (t : List Char) : List Char :=
  let f := t.filter keepChar
  let g := stripEnds pyWsChar (collapseWsAux f false)
  let h := stripEnds dotDashUnder g
  stripEnds pyWsChar (h.take maxPfxChars)

/-- Embedding of `_build_folder_prefix(tab_title)` (the argument is `None`
or a string; non-string titles are not modelled). -/
def buildFolderPfx : Option String → String
  | none => "recording"
  | some s =>
    let t := stripEnds pyWsChar s.data
    if t.isEmpty then "recording"
    else
      let r := cleanTitle t
      if r.isEmpty then "recording" else ⟨r⟩

/-! ## Datetimes (_parse_history_timestamp and the history sort) -/

/-- A Python `datetime`: offset-aware or naive, with its instant in seconds
(UTC for aware values). Sub-second precision is not modelled. -/
structure PyDT where
  aware : Bool
  t : Int

/-- Days since 1970-01-01 of a civil date (standard era-based algorithm;
all intermediate values are nonnegative for years ≥ 1). -/
def daysFromCivil (y m d : Nat) : Int :=
  let y' := if m ≤ 2 then y - 1 else y
  let era := y' / 400
  let yoe := y' % 400
  let mp := if m > 2 then m - 3 else m + 9
  let doy := (153 * mp + 2) / 5 + d - 1
  let doe := yoe * 365 + yoe / 4 - yoe / 100 + doy
  (era * 146097 + doe : Int) - 719468

/-- `datetime.min`: 0001-01-01T00:00:00, offset-naive. -/
def dtMin : PyDT :=
  ⟨false, 86400 * daysFromCivil 1 1 1⟩

/-- Leap-year test. -/
def isLeap (y : Nat) : Bool :=
  y % 4 = 0 && (y % 100 ≠ 0 || y % 400 = 0)

/-- Days in a month. -/
def daysInMonth (y m : Nat) : Nat :=
  if m = 2 then (if isLeap y then 29 else 28)
  else if m = 4 ∨ m = 6 ∨ m = 9 ∨ m = 11 then 30
  else 31

/-- Two decimal digits. -/
def twoDigits : List Char → Option (Nat × List Char)
  | a :: b :: r =>
    if a.isDigit ∧ b.isDigit then some ((a.toNat - 48) * 10 + (b.toNat - 48), r)
    else none
  | _ => none

/-- Four decimal digits. -/
def fourDigits : List Char → Option (Nat × List Char)
  | a :: b :: c :: d :: r =>
    if a.isDigit ∧ b.isDigit ∧ c.isDigit ∧ d.isDigit then
      some ((((a.toNat - 48) * 10 + (b.toNat - 48)) * 10 + (c.toNat - 48)) * 10
        + (d.toNat - 48), r)
    else none
  | _ => none

/-- The optional `±HH:MM` offset tail of an ISO string. Returns
`(aware, offset minutes)`; `none` on a malformed tail. -/
def isoParseOffset : List Char → Option (Bool × Int)
  | [] => some (false, 0)
  | sign :: r =>
    if sign = '+' ∨ sign = '-' then
      match twoDigits r with
      | some (oh, r2) =>
        match r2 with
        | ':' :: r3 =>
          match twoDigits r3 with
          | some (om, []) =>
            if oh < 24 ∧ om < 60 then
              let m : Int := (oh * 60 + om : Nat)
              some (true, if sign = '-' then -m else m)
            else none
          | _ => none
        | _ => none
      | none => none
    else none

/-- The optional time-of-day and offset tail after the date. -/
def isoParseTime (y mo d : Nat) : List Char → Option PyDT
  | [] => some ⟨false, 86400 * daysFromCivil y mo d⟩
  | sep :: r =>
    if sep = 'T' ∨ sep = ' ' then
      match twoDigits r with
      | some (h, ':' :: r2) =>
        match twoDigits r2 with
        | some (mi, r3) =>
          let secAndRest : Option (Nat × List Char) :=
            match r3 with
            | ':' :: r4 =>
              match twoDigits r4 with
              | some (s, r5) =>
                -- a fractional part is accepted and ignored (sub-second
                -- precision is not modelled)
                match r5 with
                | '.' :: r6 =>
                  let ds := r6.takeWhile Char.isDigit
                  if ds.isEmpty ∨ ds.length > 6 then none
                  else some (s, r6.dropWhile Char.isDigit)
                | _ => some (s, r5)
              | none => none
            | _ => some (0, r3)
          match secAndRest with
          | some (s, rest) =>
            match isoParseOffset rest with
            | some (aware, offMin) =>
              if h < 24 ∧ mi < 60 ∧ s < 60 then
                some ⟨aware, 86400 * daysFromCivil y mo d + 3600 * h + 60 * mi + s
                  - 60 * offMin⟩
              else none
            | none => none
          | none => none
        | none => none
      | _ => none
    else none

/-- `datetime.fromisoformat` for the shapes the host reads and writes:
`YYYY-MM-DD[{T| }HH:MM[:SS[.ffffff]][±HH:MM]]`. -/
def isoParse (s : String) : Option PyDT :=
  match fourDigits s.data with
  | some (y, '-' :: r1) =>
    match twoDigits r1 with
    | some (mo, '-' :: r2) =>
      match twoDigits r2 with
      | some (d, r3) =>
        if 1 ≤ y ∧ 1 ≤ mo ∧ mo ≤ 12 ∧ 1 ≤ d ∧ d ≤ daysInMonth y mo then
          isoParseTime y mo d r3
        else none
      | _ => none
    | _ => none
  | _ => none

/-- `value.replace("Z", "+00:00")` (the pattern is a single character, so
the replacement is character-wise). -/
def replaceZ (s : String) : String :=
  ⟨s.data.flatMap (fun c => if c = 'Z' then ['+', '0', '0', ':', '0', '0'] else [c])⟩

/-- Embedding of `_parse_history_timestamp(value)`; the argument is the
raw `createdAt` value of a history record. A truthy non-string raises
(`.replace` is not an attribute). -/
def parse_history_timestamp (v : Option JVal) : Except PyExc PyDT :=
  match v with
  | none => .ok dtMin
  | some w =>
    if truthy w = false then .ok dtMin
    else match w with
      | .str s =>
        match isoParse (replaceZ s) with
        | some dt => .ok dt
        | none => .ok dtMin
      | _ => .error (.attributeError "replace")

/-- `<` between two datetimes: comparing an offset-naive with an
offset-aware value raises TypeError. -/
def dtLtE (a b : PyDT) : Except PyExc Bool :=
  if a.aware != b.aware then
    .error (.typeError "can't compare offset-naive and offset-aware datetimes")
  else .ok (decide (a.t < b.t))

/-- The sort key of one history entry
(`_parse_history_timestamp(entry.get("createdAt"))`). -/
def historyKey : JVal → Except PyExc PyDT
  | .obj kvs => parse_history_timestamp (pyGet kvs "createdAt")
  | _ => .error (.attributeError "get")

/-- Decorate each entry with its key (CPython computes all keys before
comparing). -/
def computeKeys : List JVal → Except PyExc (List (PyDT × JVal))
  | [] => .ok []
  | e :: rest => do
    let k ← historyKey e
    let ks ← computeKeys rest
    .ok ((k, e) :: ks)

/-- Insert into a descending-sorted list, after equal keys (stability). -/
def insertDesc (x : PyDT × JVal) : List (PyDT × JVal) →
    Except PyExc (List (PyDT × JVal))
  | [] => .ok [x]
  | y :: ys => do
    let lt ← dtLtE y.1 x.1
    if lt then .ok (x :: y :: ys)
    else do
      let zs ← insertDesc x ys
      .ok (y :: zs)

/-- Stable descending sort with a partial comparator. This models
`entries.sort(key=..., reverse=True)`: it produces the same stable
descending order when every pair of keys is comparable, and raises the
same TypeError exactly when the keys mix naive and aware datetimes (any
comparison sort must then compare across the two groups). -/
def sortDescAux : List (PyDT × JVal) → List (PyDT × JVal) →
    Except PyExc (List (PyDT × JVal))
  | acc, [] => .ok acc
  | acc, x :: rest => do
    let acc' ← insertDesc x acc
    sortDescAux acc' rest

/-- `_resolve_history_path(tab_uuid, output_dir)`. -/
def resolve_history_path (tabUuid outputDir : JVal) : Except PyExc FsPath :=
  match outputDir with
  | .str od =>
    if truthy tabUuid then
      match tabUuid with
      | .str u => .ok (strToPath od ++ strToPath u ++ ["history.jsonl"])
      | _ => .error (.typeError "unsupported path join operand")
    else .ok (strToPath od ++ ["history.jsonl"])
  | _ => .error (.typeError "expected str for Path")

/-- Transcript enrichment of one entry: resolve its `text` path and attach
the trimmed file contents; a read failure leaves the entry unchanged.
(Relative paths resolve against the working directory; the model reads
them as given.) -/
def enrichEntry (fs : Fs) (e : JVal) : Except PyExc JVal :=
  match e with
  | .obj kvs =>
    match pyGet kvs "text" with
    | some (.str p) =>
      if p = "" then .ok e
      else
        match fsRead (strToPath p) fs with
        | some (.txt s) => .ok (.obj (kvs ++ [("transcript", .str (pyStrip s))]))
        | _ => .ok e
    | some v => if truthy v then .error (.typeError "expected str for Path") else .ok e
    | none => .ok e
  | _ => .ok e

/-- Enrich every entry. -/
def enrichAll (fs : Fs) : List JVal → Except PyExc (List JVal)
  | [] => .ok []
  | e :: rest => do
    let e' ← enrichEntry fs e
    let rest' ← enrichAll fs rest
    .ok (e' :: rest')

/-- Embedding of `load_history_entries`. The history file holds its
already-parsed records (`FileData.jsonl`); the blank/malformed-line
skipping of the on-disk reader is below the level of this model. Note
that a Python `bool` is an `int`, so `limit=True` truncates to one entry. -/
def load_history_entries (tabUuid outputDir limit includeTranscripts : JVal)
    (fs : Fs) : Except PyExc (List JVal) := do
  let path ← resolve_history_path tabUuid outputDir
  if fsExists fs path = false then
    .ok []
  else
    let entries := match fsRead path fs with
      | some (.jsonl es) => es
      | _ => []
    let keyed ← computeKeys entries
    let sorted ← sortDescAux [] keyed
    let entries := sorted.map (·.2)
    let entries := match limit with
      | .num n => if n > 0 then entries.take n.toNat else entries
      | .bool true => entries.take 1
      | _ => entries
    if truthy includeTranscripts = false then
      .ok entries
    else
      enrichAll fs entries

/-! ## Recording bundle writer (save_recording_bundle) -/

/-- The dictionary returned by `save_recording_bundle`. -/
structure SaveResult where
  folder : FsPath
  audio : FsPath
  text : FsPath
  tabFolder : Option FsPath
  metadata : Option FsPath

/-- The `savedPaths` JSON object of the `result` reply. -/
def renderSaveResult (r : SaveResult) : JVal :=
  .obj ([("folder", .str (pathToStr r.folder)),
         ("audio", .str (pathToStr r.audio)),
         ("text", .str (pathToStr r.text))] ++
    (match r.tabFolder with
     | some p => [("tabFolder", .str (pathToStr p))]
     | none => []) ++
    (match r.metadata with
     | some p => [("metadata", .str (pathToStr p))]
     | none => []))

/-- `None`-or-string to JSON. -/
def optStrVal : Option String → JVal
  | none => .null
  | some s => .str s

/-- Embedding of `save_recording_bundle`. The wall-clock folder timestamp,
the random 6-hex token and the ISO creation timestamp are explicit
parameters (the source draws them from `datetime.now()` / `uuid4()`; none
of them contains a path separator, so the bundle folder is one path
component). Non-string `tab_title`/`tab_uuid` values are not modelled. -/
def save_recording_bundle (audioBytes : List Nat) (transcriptText : String)
    (outputDir : String) (tabTitle tabUuid : Option String)
    (tabId tabUrl : JVal) (timestamp token nowIso : String)
    (fs : Fs) : Fs × SaveResult :=
  let outputRoot := strToPath outputDir
  let fs := fsMkdirP outputRoot fs
  let useUuid := truthyStr tabUuid
  let tabRoot :=
    if useUuid then outputRoot ++ strToPath (tabUuid.getD "") else outputRoot
  let fs := fsMkdirP tabRoot fs
  let pfx := buildFolderPfx tabTitle
  let folderPath := tabRoot ++ [pfx ++ "-" ++ timestamp ++ "-" ++ token]
  let fs := fsMkdirP folderPath fs
  let audioPath := folderPath ++ ["audio.webm"]
  let textPath := folderPath ++ ["transcript.txt"]
  let historyPath := (if useUuid then tabRoot else outputRoot) ++ ["history.jsonl"]
  let fs := fsWrite audioPath (.bin audioBytes) fs
  let fs := fsWrite textPath (.txt transcriptText) fs
  let metaPath := if useUuid then some (tabRoot ++ ["tab.json"]) else none
  let fs :=
    if useUuid then
      let metadata : JVal := .obj
        [("tabUUID", optStrVal tabUuid), ("lastTabId", tabId),
         ("lastTitle", optStrVal tabTitle), ("lastURL", tabUrl),
         ("updatedAt", .str nowIso),
         ("lastRecordingFolder", .str (pathToStr folderPath))]
      fsWrite (tabRoot ++ ["tab.json"]) (.jsonf metadata) fs
    else fs
  let historyEntry : JVal := .obj
    [("createdAt", .str nowIso), ("folder", .str (pathToStr folderPath)),
     ("audio", .str (pathToStr audioPath)), ("text", .str (pathToStr textPath)),
     ("tabUUID", optStrVal tabUuid), ("tabId", tabId),
     ("tabTitle", optStrVal tabTitle), ("tabURL", tabUrl)]
  let fs := fsAppendJsonl historyPath historyEntry fs
  (fs, { folder := folderPath, audio := audioPath, text := textPath,
         tabFolder := if useUuid then some tabRoot else none,
         metadata := metaPath })

/-! ## External collaborators and the transcription pipeline -/

/-- Stand-in for the mono 16 kHz float32 PCM array (its contents are
opaque to every claim). -/
def Pcm := List Int

/-- Oracles for the external collaborators of the host, plus the
nondeterministic inputs of one command's processing: the OS file-manager
open call, `base64.b64decode`, `convert_webm_to_wav_array` (the av
decoder) and `model.transcribe` (the result dictionary), and the folder
timestamp / random token / ISO timestamp drawn during a save. -/
structure Env where
  osOpen : String → Except PyExc Unit
  b64decode : JVal → Except PyExc (List Nat)
  convertWebmToWav : List Nat → Except PyExc Pcm
  modelTranscribe : Pcm → Except PyExc (List (String × JVal))
  timestamp : String
  token : String
  nowIso : String

/-- Embedding of `transcribe_audio_chunk`: base64-decode, decode audio,
run the model, trim the text, substitute `"[Empty]"`, optionally save. -/
def transcribe_audio_chunk (env : Env) (audioChunk : JVal) (saveToDisk : Bool)
    (outputDir : String) (tabTitle tabUuid : Option String)
    (tabId tabUrl : JVal) (fs : Fs) :
    Except PyExc (Fs × String × Option SaveResult) := do
  let audioBytes ← env.b64decode audioChunk
  let wav ← env.convertWebmToWav audioBytes
  let result ← env.modelTranscribe wav
  let text ← (match pyGet result "text" with
    | none => Except.ok ""
    | some (.str s) => Except.ok (pyStrip s)
    | some _ => Except.error (.attributeError "strip"))
  let finalText := if text = "" then "[Empty]" else text
  if saveToDisk then
    let r := save_recording_bundle audioBytes finalText outputDir
      tabTitle tabUuid tabId tabUrl env.timestamp env.token env.nowIso fs
    .ok (r.1, finalText, some r.2)
  else
    .ok (fs, finalText, none)

/-! ## Folder-open and file-load handlers -/

/-- `ensure_recordings_root(output_dir)`: `Path(output_dir)` (TypeError on
a non-string) then an idempotent recursive mkdir. -/
def ensure_recordings_root (outputDir : JVal) (fs : Fs) :
    Except PyExc (Fs × FsPath) :=
  match outputDir with
  | .str s => .ok (fsMkdirP (strToPath s) fs, strToPath s)
  | _ => .error (.typeError "expected str for Path")

/-- Embedding of `open_specific_folder`: falsy path is a ValueError, a
file path opens its parent, a missing path is a FileNotFoundError, and a
failing OS open is wrapped in a RuntimeError. -/
def open_specific_folder (env : Env) (fs : Fs) (folderPath : JVal) :
    Except PyExc String :=
  if truthy folderPath = false then .error (.valueError "Folder path is required.")
  else match folderPath with
    | .str s =>
      let folder := strToPath s
      let folder := if fsIsFile fs folder then folder.dropLast else folder
      if fsExists fs folder = false then
        .error (.fileNotFoundError ("Folder does not exist: " ++ pathToStr folder))
      else
        match env.osOpen (pathToStr folder) with
        | .ok _ => .ok (pathToStr folder)
        | .error e => .error (.runtimeError ("Unable to open folder: " ++ excStr e))
    | _ => .error (.typeError "argument should be a str or an os.PathLike object")

/-- Embedding of `open_recordings_folder`: ensure the root (its failures
propagate unwrapped), then open it (those failures are wrapped). The
mkdir side effect persists even when the open fails. -/
def open_recordings_folder (env : Env) (fs : Fs) (outputDir : JVal) :
    Fs × Except PyExc String :=
  match ensure_recordings_root outputDir fs with
  | .error e => (fs, .error e)
  | .ok (fs', root) =>
    match open_specific_folder env fs' (.str (pathToStr root)) with
    | .ok p => (fs', .ok p)
    | .error e =>
      (fs', .error (.runtimeError ("Unable to open recordings folder: " ++ excStr e)))

/-- The body of the `load-audio-file` handler up to the reply: falsy path
is a ValueError, then raw bytes are read from the path. -/
def load_audio_file (fs : Fs) (audioPath : JVal) : Except PyExc (List Nat) :=
  if truthy audioPath = false then .error (.valueError "Missing audio file path.")
  else match audioPath with
    | .str p =>
      match fsRead (strToPath p) fs with
      | some (.bin bs) => .ok bs
      | some (.txt s) => .ok (utf8Encode s)
      | some _ => .error (.osError "unreadable file")
      | none => .error (.fileNotFoundError ("No such file or directory: " ++ p))
    | _ => .error (.typeError "expected str, bytes or os.PathLike object")

/-! ## Command dispatcher -/

/-- A `status` reply. -/
def mkStatus (t : String) : JVal :=
  .obj [("type", .str "status"), ("text", .str t)]

/-- An `error` reply. -/
def mkError (t : String) : JVal :=
  .obj [("type", .str "error"), ("text", .str t)]

/-- `msg.get("command")` when it is a string (a non-string value compares
unequal to every command name, like in the source). -/
def getCmd (kvs : List (String × JVal)) : Option String :=
  match pyGet kvs "command" with
  | some (.str s) => some s
  | _ => none

/-- One dispatch step of the main loop on a decoded non-empty message:
returns the updated filesystem and the replies sent, in order. Every
handler branch catches its exceptions and converts them to its typed
error reply. -/
def dispatchMsg (env : Env) (fs : Fs) (kvs : List (String × JVal)) :
    Fs × List JVal :=
  if getCmd kvs = some "open-recordings-folder" then
    let outputDir := pyGetD kvs "outputDir" (.str "recordings")
    match open_recordings_folder env fs outputDir with
    | (fs', .ok folderStr) =>
      (fs', [mkStatus ("Recordings folder opened: " ++ folderStr)])
    | (fs', .error e) =>
      (fs', [mkError ("Failed to open recordings folder: " ++ excStr e)])
  else if getCmd kvs = some "open-folder" then
    let folderPath := pyGetD kvs "path" .null
    match open_specific_folder env fs folderPath with
    | .ok opened => (fs, [mkStatus ("Opened saved folder: " ++ opened)])
    | .error e => (fs, [mkError ("Failed to open saved folder: " ++ excStr e)])
  else if getCmd kvs = some "load-tab-history" then
    let requestId := pyGetD kvs "requestId" .null
    let tabUuid := pyGetD kvs "tabUUID" .null
    let outputDir := pyGetD kvs "outputDir" (.str "recordings")
    let limit := pyGetD kvs "limit" .null
    let includeTranscripts := pyGetD kvs "includeTranscripts" (.bool true)
    match load_history_entries tabUuid outputDir limit includeTranscripts fs with
    | .ok entries =>
      (fs, [.obj [("type", .str "tab-history-result"), ("requestId", requestId),
                  ("tabUUID", tabUuid), ("entries", .arr entries)]])
    | .error e =>
      (fs, [.obj [("type", .str "tab-history-error"), ("requestId", requestId),
                  ("tabUUID", tabUuid),
                  ("text", .str ("Unable to load tab history: " ++ excStr e))]])
  else if getCmd kvs = some "load-audio-file" then
    let requestId := pyGetD kvs "requestId" .null
    let audioPath := pyGetD kvs "path" .null
    match load_audio_file fs audioPath with
    | .ok bytes =>
      (fs, [.obj [("type", .str "audio-file"), ("requestId", requestId),
                  ("path", audioPath),
                  ("mimeType", pyGetD kvs "mimeType" (.str "audio/webm")),
                  ("base64", .str (b64encode bytes))]])
    | .error e =>
      (fs, [.obj [("type", .str "audio-file-error"), ("requestId", requestId),
                  ("path", audioPath),
                  ("text", .str ("Unable to load audio file: " ++ excStr e))]])
  else if hasKey kvs "audioChunk" then
    let audioChunk := pyGetD kvs "audioChunk" .null
    let saveToDisk := truthy (pyGetD kvs "saveToDisk" (.bool true))
    match transcribe_audio_chunk env audioChunk saveToDisk "recordings"
        (pyGetStr kvs "tabTitle") (pyGetStr kvs "tabUUID")
        (pyGetD kvs "tabId" .null) (pyGetD kvs "tabURL" .null) fs with
    | .ok (fs', text, some sp) =>
      (fs', [mkStatus ("Saved audio & transcript to " ++ pathToStr sp.folder),
             .obj [("type", .str "result"), ("text", .str text),
                   ("savedPaths", renderSaveResult sp)]])
    | .ok (fs', text, none) =>
      (fs', [.obj [("type", .str "result"), ("text", .str text)]])
    | .error e => (fs, [mkError ("[Error] " ++ excStr e)])
  else (fs, [])

/-! ## Frame codec and main loop -/

/-- The framing half of `send_message`: a 4-byte little-endian length
followed by the payload. -/
def writeFrame (payload : List Nat) : List Nat :=
  toLE4 payload.length ++ payload

/-- The outcome of one `read_message` call. -/
inductive ReadResult where
  | eos
  | fatal (e : PyExc)
  | emptyAfterError
  | emptyNonDict
  | message (kvs : List (String × JVal))

/-- The error reply sent on a JSON decode failure. -/
def errInvalidPayload : JVal :=
  mkError "Invalid message payload received by native host."

/-- The outcome of the frame-reading half of `read_message`. -/
inductive FrameResult where
  | eos
  | fatalShortLen
  | frame (payload rest : List Nat)

/-- The frame-reading half of `read_message` (lines 103–109): read 4
length bytes (none at all is end-of-stream, 1–3 make `struct.unpack`
raise), then read that many payload bytes. The payload read is never
length-checked, so a stream closed mid-frame yields a short payload. -/
def readFrame (s : List Nat) : FrameResult :=
  let raw := s.take 4
  if raw.isEmpty then .eos
  else if raw.length < 4 then .fatalShortLen
  else
    let n := fromLE4 raw
    .frame ((s.drop 4).take n) ((s.drop 4).drop n)

/-- Embedding of `read_message` on the remaining input bytes: returns the
outcome, the unconsumed bytes, and any reply it sent itself. Only
`json.JSONDecodeError` is caught (invalid UTF-8 raises out). -/
def readMessage (s : List Nat) : ReadResult × List Nat × List JVal :=
  match readFrame s with
  | .eos => (.eos, s.drop 4, [])
  | .fatalShortLen => (.fatal .structError, s.drop 4, [])
  | .frame body rest =>
    match utf8Decode body with
    | none => (.fatal .unicodeDecodeError, rest, [])
    | some txt =>
      match jsonParse txt with
      | none => (.emptyAfterError, rest, [errInvalidPayload])
      | some (.obj kvs) => (.message kvs, rest, [])
      | some _ => (.emptyNonDict, rest, [])

/-- How a run of the main loop ended. -/
inductive LoopEnd where
  | cleanShutdown
  | crashed (e : PyExc)

/-- The `while True` dispatch loop: read a message, skip empty payloads,
dispatch, repeat; `None` (end-of-stream) breaks cleanly; an uncaught
exception from `read_message` ends the run as `crashed`. The fuel only
bounds iteration count (each iteration consumes at least one byte, so
`s.length + 1` is always enough); at fuel 0 the loop reports a clean
shutdown, a case `runHost` never reaches. -/
def runLoop (env : Env) : Nat → Fs → List Nat → Fs × List JVal × LoopEnd
  | 0, fs, _ => (fs, [], .cleanShutdown)
  | fuel + 1, fs, s =>
    match readMessage s with
    | (.eos, _, sent) => (fs, sent, .cleanShutdown)
    | (.fatal e, _, sent) => (fs, sent, .crashed e)
    | (.emptyAfterError, rest, sent) =>
      let r := runLoop env fuel fs rest
      (r.1, sent ++ r.2.1, r.2.2)
    | (.emptyNonDict, rest, sent) =>
      let r := runLoop env fuel fs rest
      (r.1, sent ++ r.2.1, r.2.2)
    | (.message kvs, rest, sent) =>
      if kvs.isEmpty then
        let r := runLoop env fuel fs rest
        (r.1, sent ++ r.2.1, r.2.2)
      else
        let d := dispatchMsg env fs kvs
        let r := runLoop env fuel d.1 rest
        (r.1, sent ++ d.2 ++ r.2.1, r.2.2)

/-- The first startup status message. -/
def statusStarted : JVal := mkStatus "Whisper host started"

/-- The second startup status message. -/
def statusModelReady : JVal := mkStatus "ModelReady"

/-- The whole host process after model load: the two startup status
messages, then the dispatch loop over the input byte stream. Returns the
final filesystem, all outbound messages in order, and how the run ended. -/
def runHost (env : Env) (fs : Fs) (s : List Nat) : Fs × List JVal × LoopEnd :=
  let r := runLoop env (s.length + 1) fs s
  (r.1, statusStarted :: statusModelReady :: r.2.1, r.2.2)

/-! ## Concrete environments used to instantiate the theorems -/

/-- A benign environment: every external call succeeds, the model says
"hi", and the clock/token draws are fixed. -/
def envDemo : Env where
  osOpen := fun _ => .ok ()
  b64decode := fun _ => .ok [65, 66, 67]
  convertWebmToWav := fun _ => .ok ([] : Pcm)
  modelTranscribe := fun _ => .ok [("text", .str "hi")]
  timestamp := "20260101-120000"
  token := "abc123"
  nowIso := "2026-01-01T12:00:00Z"

/-- Like `envDemo`, but the model returns whitespace-only text. -/
def envWs : Env :=
  { envDemo with modelTranscribe := fun _ => .ok [("text", .str "   ")] }

/-! # Theorems

First the shared helper lemmas, then one theorem per claim (with its
witness or counterexample where required). -/

/-- Unpacking a packed 32-bit length recovers it. -/
theorem fromLE4_toLE4 (n : Nat) (h : n < 4294967296) : fromLE4 (toLE4 n) = n := by
  simp only [toLE4, fromLE4]
  omega

/-- Reading a frame from a stream that starts with a packed length `n`
takes `n` bytes of payload (or whatever is available). -/
theorem readFrame_pfx (n : Nat) (x : List Nat) (h : n < 4294967296) :
    readFrame (toLE4 n ++ x) = .frame (x.take n) (x.drop n) := by
  have he := fromLE4_toLE4 n h
  simp only [readFrame, toLE4] at he ⊢
  simp [List.take, List.drop, he]

/-- C8: writing any payload as a length-prefixed frame and reading one
frame back from the stream reproduces the payload exactly (for payloads
below the 32-bit length limit the prefix can express), leaving the rest
of the stream untouched. -/
theorem frame_roundtrip (p rest : List Nat) (h : p.length < 4294967296) :
    readFrame (writeFrame p ++ rest) = .frame p rest := by
  rw [writeFrame, List.append_assoc, readFrame_pfx p.length (p ++ rest) h,
    List.take_left, List.drop_left]

/-- Witness for C8 at the empty payload. -/
theorem frame_roundtrip_empty :
    readFrame (writeFrame [] ++ []) = .frame [] [] :=
  frame_roundtrip [] [] (by decide)

/-- C2 (amended): a stream closed mid-frame (a length prefix announcing
`n` bytes but fewer available) is not end-of-stream and is not detected
at all: the short payload is read as if it were the complete frame, and
`read_message` proceeds on it exactly as on a well-formed frame carrying
those bytes. -/
theorem truncated_frame_as_short_frame (n : Nat) (b : List Nat)
    (h1 : b.length < n) (h2 : n < 4294967296) :
    readFrame (toLE4 n ++ b) = .frame b []
    ∧ readMessage (toLE4 n ++ b) = readMessage (writeFrame b) := by
  have hf : readFrame (toLE4 n ++ b) = .frame b [] := by
    rw [readFrame_pfx n b h2, List.take_of_length_le (le_of_lt h1),
      List.drop_of_length_le (le_of_lt h1)]
  have hf2 : readFrame (writeFrame b) = .frame b [] := by
    have := readFrame_pfx b.length b (lt_trans h1 h2)
    rwa [List.take_length, List.drop_length] at this
  refine ⟨hf, ?_⟩
  unfold readMessage
  rw [hf, hf2]

/-- Witness for C2 (amended): a frame announcing 5 bytes, closed after
one payload byte. -/
theorem truncated_frame_as_short_frame_inst :
    readFrame (toLE4 5 ++ [123]) = .frame [123] []
    ∧ readMessage (toLE4 5 ++ [123]) = readMessage (writeFrame [123]) :=
  truncated_frame_as_short_frame 5 [123] (by norm_num) (by norm_num)

/-- Counterexample to C2 as stated: run the host on a stream that closes
mid-frame (5 announced, one byte `0x7b` = "{" delivered). The truncated
payload fails JSON decoding, the host answers with the protocol-error
reply, treats the message as a no-op, continues the loop and shuts down
cleanly at the following end-of-stream — a recoverable no-op protocol
error, not an unrecoverable transport fault. -/
theorem truncated_frame_handled_as_noop :
    runHost envDemo fsEmpty (toLE4 5 ++ [123]) =
      (fsEmpty, [statusStarted, statusModelReady, errInvalidPayload],
        .cleanShutdown) := rfl

/-- C10: on every input stream the first two outbound messages of a host
run are the "Whisper host started" and "ModelReady" status messages, in
that order, emitted before the loop reads any inbound frame. -/
theorem startup_status_first (env : Env) (fs : Fs) (s : List Nat) :
    ((runHost env fs s).2.1).take 2 = [statusStarted, statusModelReady] := rfl

/-- C3 (code evaluation): the sanitizer deletes the forbidden character
`/` instead of replacing it with `_`: the title of the repository's own
unit test yields the prefix "My Tab Name", which does not start with the
"My Tab _ Name" the test (and the claim) expect. -/
theorem forbidden_chars_deleted_example :
    buildFolderPfx (some "My Tab / Name") = "My Tab Name"
    ∧ String.isPrefixOf "My Tab _ Name" (buildFolderPfx (some "My Tab / Name"))
      = false := by
  constructor
  · rfl
  · rfl

/-- C4 (code evaluation): loading a history file that mixes an entry
whose `createdAt` carries the host's own `...Z` timestamp (parsed
offset-aware) with an entry lacking `createdAt` (keyed by the offset-naive
`datetime.min`) raises TypeError from the sort instead of returning the
entries sorted with the missing-timestamp entry last. -/
theorem history_sort_mixed_timestamps_crash :
    load_history_entries .null (.str "recordings") .null (.bool false)
      ⟨[["recordings"]],
       [(["recordings", "history.jsonl"],
         .jsonl [.obj [("createdAt", .str "2026-01-02T03:04:05Z"),
                       ("folder", .str "recordings/a")],
                 .obj [("folder", .str "recordings/b")]])]⟩
      = .error (.typeError "can't compare offset-naive and offset-aware datetimes") :=
  rfl

/-- A character of a both-ends-stripped list is a character of the list. -/
theorem mem_of_mem_stripEnds {c : Char} {p : Char → Bool} {cs : List Char}
    (h : c ∈ stripEnds p cs) : c ∈ cs := by
  unfold stripEnds at h
  rw [List.mem_reverse] at h
  have h2 := (List.dropWhile_sublist p).mem h
  rw [List.mem_reverse] at h2
  exact (List.dropWhile_sublist p).mem h2

/-- Stripping both ends never lengthens a list. -/
theorem length_stripEnds_le (p : Char → Bool) (cs : List Char) :
    (stripEnds p cs).length ≤ cs.length := by
  unfold stripEnds
  simp only [List.length_reverse]
  refine le_trans (List.dropWhile_sublist p).length_le ?_
  simp only [List.length_reverse]
  exact (List.dropWhile_sublist p).length_le

/-- A character of the whitespace-collapsed list is a space or a
non-whitespace character of the original. -/
theorem mem_collapseWs (c : Char) (cs : List Char) (b : Bool)
    (h : c ∈ collapseWsAux cs b) : (c ∈ cs ∧ pyWsChar c = false) ∨ c = ' ' := by
  induction cs generalizing b with
  | nil => simp [collapseWsAux] at h
  | cons d rest ih =>
    simp only [collapseWsAux] at h
    by_cases hw : pyWsChar d = true
    · simp only [hw, if_true] at h
      by_cases hb : b
      · simp only [hb, if_true] at h
        rcases ih true h with ⟨h1, h2⟩ | h1
        · exact .inl ⟨List.mem_cons_of_mem _ h1, h2⟩
        · exact .inr h1
      · simp only [hb, if_false] at h
        rcases List.mem_cons.mp h with hc | h'
        · exact .inr hc
        · rcases ih true h' with ⟨h1, h2⟩ | h1
          · exact .inl ⟨List.mem_cons_of_mem _ h1, h2⟩
          · exact .inr h1
    · simp only [hw, if_false] at h
      rcases List.mem_cons.mp h with hc | h'
      · subst hc
        exact .inl ⟨List.mem_cons_self _ _, by simpa using hw⟩
      · rcases ih false h' with ⟨h1, h2⟩ | h1
        · exact .inl ⟨List.mem_cons_of_mem _ h1, h2⟩
        · exact .inr h1

/-- Every character surviving the cleaning pipeline is a word character,
a space, or a hyphen. -/
theorem cleanTitle_chars (t : List Char) (c : Char) (h : c ∈ cleanTitle t) :
    isWordChar c = true ∨ c = ' ' ∨ c = '-' := by
  simp only [cleanTitle] at h
  have h1 := mem_of_mem_stripEnds h
  have h2 := (List.take_sublist _ _).mem h1
  have h3 := mem_of_mem_stripEnds h2
  have h4 := mem_of_mem_stripEnds h3
  rcases mem_collapseWs c _ _ h4 with ⟨h5, hnw⟩ | hsp
  · have h6 := (List.mem_filter.mp h5).2
    simp only [keepChar, hnw, Bool.or_false, Bool.false_or, Bool.or_eq_true,
      decide_eq_true_eq] at h6
    rcases h6 with h7 | h7
    · exact Or.inl h7
    · exact Or.inr (Or.inr h7)
  · exact Or.inr (Or.inl hsp)

/-- The cleaning pipeline never produces more than 60 characters. -/
theorem cleanTitle_length_le (t : List Char) :
    (cleanTitle t).length ≤ maxPfxChars := by
  simp only [cleanTitle]
  exact le_trans (length_stripEnds_le _ _) (List.length_take_le _ _)

/-- The character list of a packed string. -/
theorem strDataMk (l : List Char) : (String.mk l).data = l := rfl

/-- The length of a packed string. -/
theorem strLengthMk (l : List Char) : (String.mk l).length = l.length := rfl

/-- The characters of the fallback name "recording" are in the allowed
set. -/
theorem recording_chars :
    ∀ c ∈ ("recording" : String).data, isWordChar c = true ∨ c = ' ' ∨ c = '-' := by
  decide

/-- The fallback name "recording" is within the length bound. -/
theorem recording_len : ("recording" : String).length ≤ maxPfxChars := by
  decide

/-- C6 (amended): for every input (including `None`) the folder prefix
contains only word characters, spaces and hyphens (in particular never a
`.`), is at most 60 characters long, and is exactly "recording" for a
missing, empty, whitespace-only, or fully-cleaned-away title. (The
original claim's "no leading or trailing `-`/`_`" is false — see the
counterexample — because `strip('.-_')` runs before whitespace
re-stripping and before the 60-character truncation.) -/
theorem folder_pfx_props (o : Option String) :
    (∀ c ∈ (buildFolderPfx o).data, isWordChar c = true ∨ c = ' ' ∨ c = '-')
    ∧ (buildFolderPfx o).length ≤ maxPfxChars
    ∧ (∀ c ∈ (buildFolderPfx o).data, c ≠ '.')
    ∧ buildFolderPfx none = "recording"
    ∧ (∀ s : String, s.data.all pyWsChar = true → buildFolderPfx (some s) = "recording")
    ∧ (∀ s : String, cleanTitle (stripEnds pyWsChar s.data) = [] →
        buildFolderPfx (some s) = "recording") := by
  have hchar : ∀ c ∈ (buildFolderPfx o).data, isWordChar c = true ∨ c = ' ' ∨ c = '-' := by
    cases o with
    | none => exact recording_chars
    | some s =>
      simp only [buildFolderPfx]
      by_cases ht : (stripEnds pyWsChar s.data).isEmpty = true
      · rw [if_pos ht]; exact recording_chars
      · rw [if_neg ht]
        by_cases hr : (cleanTitle (stripEnds pyWsChar s.data)).isEmpty = true
        · rw [if_pos hr]; exact recording_chars
        · rw [if_neg hr, strDataMk]
          intro c hc
          exact cleanTitle_chars _ c hc
  refine ⟨hchar, ?_, ?_, rfl, ?_, ?_⟩
  · cases o with
    | none => exact recording_len
    | some s =>
      simp only [buildFolderPfx]
      by_cases ht : (stripEnds pyWsChar s.data).isEmpty = true
      · rw [if_pos ht]; exact recording_len
      · rw [if_neg ht]
        by_cases hr : (cleanTitle (stripEnds pyWsChar s.data)).isEmpty = true
        · rw [if_pos hr]; exact recording_len
        · rw [if_neg hr, strLengthMk]
          exact cleanTitle_length_le _
  · intro c hc heq
    subst heq
    rcases hchar _ hc with h | h | h
    · exact absurd h (by decide)
    · exact absurd h (by decide)
    · exact absurd h (by decide)
  · intro s hws
    have hnil : stripEnds pyWsChar s.data = [] := by
      unfold stripEnds
      rw [List.dropWhile_eq_nil_iff.mpr (fun x hx => List.all_eq_true.mp hws x hx)]
      rfl
    simp [buildFolderPfx, hnil]
  · intro s hcl
    simp only [buildFolderPfx]
    by_cases ht : (stripEnds pyWsChar s.data).isEmpty = true
    · rw [if_pos ht]
    · rw [if_neg ht, hcl]
      rfl

/-- Witness for C6 (amended) at concrete inputs. -/
theorem folder_pfx_props_inst :
    (isWordChar 'a' = true ∨ 'a' = ' ' ∨ 'a' = '-')
    ∧ 'a' ≠ '.'
    ∧ buildFolderPfx (some " \t ") = "recording" :=
  ⟨(folder_pfx_props (some "ab")).1 'a' (by decide),
   (folder_pfx_props (some "ab")).2.2.1 'a' (by decide),
   (folder_pfx_props (some " \t ")).2.2.2.2.1 " \t " (by decide)⟩

/-- Counterexample to C6 as stated: a leading hyphen survives when
`strip('.-_')` exposes interior whitespace that the final strip then
removes ("-- -a" → "-a"), and a trailing hyphen survives when the
60-character truncation cuts just after it. -/
theorem folder_pfx_edge_marks :
    buildFolderPfx (some "-- -a") = "-a"
    ∧ buildFolderPfx (some ((⟨List.replicate 59 'a'⟩ : String) ++ "-a"))
      = (⟨List.replicate 59 'a' ++ ['-']⟩ : String) := by
  constructor
  · rfl
  · rfl

/-- Reading a path just written yields the written contents. -/
theorem fsRead_fsWrite_self (p : FsPath) (d : FileData) (fs : Fs) :
    fsRead p (fsWrite p d fs) = some d := by
  unfold fsRead fsWrite
  rw [List.find?_cons_of_pos _ (by simp)]
  rfl

theorem fsRead_fsWrite_ne (p q : FsPath) (d : FileData) (fs : Fs) (h : q ≠ p) :
    fsRead p (fsWrite q d fs) = fsRead p fs := by
  unfold fsRead fsWrite
  rw [List.find?_cons_of_neg _ (by simpa using h)]

theorem fsRead_fsAppendJsonl_ne (p q : FsPath) (e : JVal) (fs : Fs) (h : q ≠ p) :
    fsRead p (fsAppendJsonl q e fs) = fsRead p fs := by
  unfold fsAppendJsonl
  exact fsRead_fsWrite_ne p q _ fs h

theorem fsRead_fsMkdirP (p q : FsPath) (fs : Fs) :
    fsRead p (fsMkdirP q fs) = fsRead p fs := rfl

theorem dirs_fsWrite (p : FsPath) (d : FileData) (fs : Fs) :
    (fsWrite p d fs).dirs = fs.dirs := rfl

theorem dirs_fsAppendJsonl (p : FsPath) (e : JVal) (fs : Fs) :
    (fsAppendJsonl p e fs).dirs = fs.dirs := rfl

theorem self_mem_fsMkdirP (p : FsPath) (fs : Fs) (h : p ≠ []) :
    p ∈ (fsMkdirP p fs).dirs := by
  unfold fsMkdirP
  refine List.mem_append_left _ (List.mem_map.mpr ⟨p.length - 1, ?_, ?_⟩)
  · exact List.mem_range.mpr (by have := List.length_pos.mpr h; omega)
  · rw [Nat.sub_add_cancel (List.length_pos.mpr h)]
    exact List.take_length _

/-- Everything `save_recording_bundle` guarantees about the bundle it
writes: the folder is a strict subdirectory of the root, the two files
hold exactly the given bytes and text, and the returned paths name them. -/
theorem save_bundle_facts
    (audioBytes : List Nat) (transcriptText : String) (outputDir : String)
    (tabTitle tabUuid : Option String) (tabId tabUrl : JVal)
    (timestamp token nowIso : String) (fs : Fs) :
    let r := save_recording_bundle audioBytes transcriptText outputDir tabTitle
      tabUuid tabId tabUrl timestamp token nowIso fs
    List.IsPrefix (strToPath outputDir) r.2.folder
    ∧ (strToPath outputDir).length < r.2.folder.length
    ∧ r.2.folder ∈ r.1.dirs
    ∧ r.2.audio = r.2.folder ++ ["audio.webm"]
    ∧ r.2.text = r.2.folder ++ ["transcript.txt"]
    ∧ fsRead r.2.audio r.1 = some (.bin audioBytes)
    ∧ fsRead r.2.text r.1 = some (.txt transcriptText) := by
  by_cases hu : truthyStr tabUuid = true <;>
    simp only [save_recording_bundle, hu, if_true, if_false, Bool.false_eq_true,
      reduceIte] <;>
    refine ⟨?_, ?_, ?_, trivial, trivial, ?_, ?_⟩
  · exact ⟨_, (List.append_assoc _ _ _).symm⟩
  · simp [List.length_append]
  · rw [dirs_fsAppendJsonl, dirs_fsWrite, dirs_fsWrite, dirs_fsWrite]
    exact self_mem_fsMkdirP _ _ (by simp)
  · rw [fsRead_fsAppendJsonl_ne _ _ _ _ (by simp [List.append_assoc]),
      fsRead_fsWrite_ne _ _ _ _ (by simp [List.append_assoc]),
      fsRead_fsWrite_ne _ _ _ _ (by simp),
      fsRead_fsWrite_self]
  · rw [fsRead_fsAppendJsonl_ne _ _ _ _ (by simp [List.append_assoc]),
      fsRead_fsWrite_ne _ _ _ _ (by simp [List.append_assoc]),
      fsRead_fsWrite_self]
  · exact ⟨_, rfl⟩
  · simp [List.length_append]
  · rw [dirs_fsAppendJsonl, dirs_fsWrite, dirs_fsWrite]
    exact self_mem_fsMkdirP _ _ (by simp)
  · rw [fsRead_fsAppendJsonl_ne _ _ _ _ (by simp [List.append_assoc]),
      fsRead_fsWrite_ne _ _ _ _ (by simp),
      fsRead_fsWrite_self]
  · rw [fsRead_fsAppendJsonl_ne _ _ _ _ (by simp [List.append_assoc]),
      fsRead_fsWrite_self]

/-- C1: for all audio bytes, transcript text, output root, optional tab
title and optional tab identity (and any timestamp / random token),
`save_recording_bundle` creates a bundle folder that is a strict
subdirectory of the output root, writes `audio.webm` with exactly the
audio bytes and `transcript.txt` with exactly the transcript text inside
it, and returns those paths. -/
theorem save_recording_bundle_correct
    (audioBytes : List Nat) (transcriptText : String) (outputDir : String)
    (tabTitle tabUuid : Option String) (tabId tabUrl : JVal)
    (timestamp token nowIso : String) (fs : Fs) :
    let r := save_recording_bundle audioBytes transcriptText outputDir tabTitle
      tabUuid tabId tabUrl timestamp token nowIso fs
    List.IsPrefix (strToPath outputDir) r.2.folder
    ∧ (strToPath outputDir).length < r.2.folder.length
    ∧ r.2.folder ∈ r.1.dirs
    ∧ r.2.audio = r.2.folder ++ ["audio.webm"]
    ∧ r.2.text = r.2.folder ++ ["transcript.txt"]
    ∧ fsRead r.2.audio r.1 = some (.bin audioBytes)
    ∧ fsRead r.2.text r.1 = some (.txt transcriptText) :=
  save_bundle_facts audioBytes transcriptText outputDir tabTitle tabUuid tabId
    tabUrl timestamp token nowIso fs


/-- The only exceptions `read_message` lets escape are the short-length
`struct.error` and the invalid-UTF-8 decode error. -/
theorem readMessage_fatal_cases (s : List Nat) (e : PyExc) (rest : List Nat)
    (sent : List JVal) (h : readMessage s = (.fatal e, rest, sent)) :
    e = .structError ∨ e = .unicodeDecodeError := by
  unfold readMessage at h
  cases hf : readFrame s <;> rw [hf] at h <;> try dsimp only at h
  · simp at h
  · simp only [Prod.mk.injEq] at h
    rcases h with ⟨h1, -⟩
    cases h1
    exact Or.inl rfl
  · rename_i body rest2
    cases hd : utf8Decode body <;> rw [hd] at h <;> try dsimp only at h
    · simp only [Prod.mk.injEq] at h
      rcases h with ⟨h1, -⟩
      cases h1
      exact Or.inr rfl
    · rename_i txt
      cases hj : jsonParse txt <;> rw [hj] at h <;> try dsimp only at h
      · simp at h
      · rename_i v
        cases v <;> simp at h

/-- The dispatch loop can only abort with a transport-level fault from
`read_message`; no handler outcome crashes it. -/
theorem runLoop_crash_transport (env : Env) (fuel : Nat) (fs : Fs) (s : List Nat)
    (e : PyExc) (h : (runLoop env fuel fs s).2.2 = .crashed e) :
    e = .structError ∨ e = .unicodeDecodeError := by
  induction fuel generalizing fs s with
  | zero => simp [runLoop] at h
  | succ n ih =>
    rw [runLoop] at h
    rcases hr : readMessage s with ⟨res, rest, sent⟩
    rw [hr] at h
    cases res <;> dsimp only at h
    case eos => simp at h
    case fatal e2 =>
      injection h with h2
      rw [← h2]
      exact readMessage_fatal_cases s e2 rest sent hr
    case emptyAfterError => exact ih _ _ h
    case emptyNonDict => exact ih _ _ h
    case message kvs =>
      by_cases hk : kvs.isEmpty = true
      · rw [if_pos hk] at h
        dsimp only at h
        exact ih _ _ h
      · rw [if_neg hk] at h
        dsimp only at h
        exact ih _ _ h

/-- The transcription pipeline on a successful external chain. -/
theorem transcribe_chain (env : Env) (fs : Fs) (chunk : JVal) (std : Bool)
    (od : String) (tt tu : Option String) (tid turl : JVal)
    (bs : List Nat) (w : Pcm) (rd : List (String × JVal)) (tx : String)
    (h4 : env.b64decode chunk = .ok bs) (h5 : env.convertWebmToWav bs = .ok w)
    (h6 : env.modelTranscribe w = .ok rd) (h7 : pyGet rd "text" = some (.str tx)) :
    transcribe_audio_chunk env chunk std od tt tu tid turl fs =
      (let ft := if pyStrip tx = "" then "[Empty]" else pyStrip tx
       if std then
         let r := save_recording_bundle bs ft od tt tu tid turl
           env.timestamp env.token env.nowIso fs
         .ok (r.1, ft, some r.2)
       else .ok (fs, ft, none)) := by
  unfold transcribe_audio_chunk
  rw [h4]
  dsimp only [Bind.bind, Except.bind]
  rw [h5]
  dsimp only [Bind.bind, Except.bind]
  rw [h6]
  dsimp only [Bind.bind, Except.bind]
  rw [h7]

/-- C5 (amended): every command handler converts an exception into its
command-specific error reply — `error` for the folder-open commands and
the implicit transcription command, `tab-history-error` for
`load-tab-history`, `audio-file-error` for `load-audio-file` — with the
exception formatted into the reply text; after a dispatched message the
loop continues reading the next frame; and the loop can only abort on a
transport fault of `read_message` itself (a short length prefix, or a
frame whose payload is not valid UTF-8 — the latter is why "only a
closed input stream ends the loop" is false as stated). -/
theorem dispatch_errors_recovered (env : Env) (fs : Fs)
    (kvs : List (String × JVal)) (e : PyExc) :
    (getCmd kvs = some "open-recordings-folder" →
      (open_recordings_folder env fs (pyGetD kvs "outputDir" (.str "recordings"))).2
        = .error e →
      dispatchMsg env fs kvs =
        ((open_recordings_folder env fs (pyGetD kvs "outputDir" (.str "recordings"))).1,
         [mkError ("Failed to open recordings folder: " ++ excStr e)]))
    ∧ (getCmd kvs = some "open-folder" →
      open_specific_folder env fs (pyGetD kvs "path" .null) = .error e →
      dispatchMsg env fs kvs =
        (fs, [mkError ("Failed to open saved folder: " ++ excStr e)]))
    ∧ (getCmd kvs = some "load-tab-history" →
      load_history_entries (pyGetD kvs "tabUUID" .null)
        (pyGetD kvs "outputDir" (.str "recordings")) (pyGetD kvs "limit" .null)
        (pyGetD kvs "includeTranscripts" (.bool true)) fs = .error e →
      dispatchMsg env fs kvs =
        (fs, [.obj [("type", .str "tab-history-error"),
                    ("requestId", pyGetD kvs "requestId" .null),
                    ("tabUUID", pyGetD kvs "tabUUID" .null),
                    ("text", .str ("Unable to load tab history: " ++ excStr e))]]))
    ∧ (getCmd kvs = some "load-audio-file" →
      load_audio_file fs (pyGetD kvs "path" .null) = .error e →
      dispatchMsg env fs kvs =
        (fs, [.obj [("type", .str "audio-file-error"),
                    ("requestId", pyGetD kvs "requestId" .null),
                    ("path", pyGetD kvs "path" .null),
                    ("text", .str ("Unable to load audio file: " ++ excStr e))]]))
    ∧ (getCmd kvs = none → hasKey kvs "audioChunk" = true →
      transcribe_audio_chunk env (pyGetD kvs "audioChunk" .null)
        (truthy (pyGetD kvs "saveToDisk" (.bool true))) "recordings"
        (pyGetStr kvs "tabTitle") (pyGetStr kvs "tabUUID")
        (pyGetD kvs "tabId" .null) (pyGetD kvs "tabURL" .null) fs = .error e →
      dispatchMsg env fs kvs = (fs, [mkError ("[Error] " ++ excStr e)]))
    ∧ (∀ (fuel : Nat) (s rest : List Nat) (sent : List JVal),
        readMessage s = (.message kvs, rest, sent) → kvs.isEmpty = false →
        runLoop env (fuel + 1) fs s =
          ((runLoop env fuel (dispatchMsg env fs kvs).1 rest).1,
           sent ++ (dispatchMsg env fs kvs).2
             ++ (runLoop env fuel (dispatchMsg env fs kvs).1 rest).2.1,
           (runLoop env fuel (dispatchMsg env fs kvs).1 rest).2.2))
    ∧ (∀ (fuel : Nat) (s : List Nat) (e2 : PyExc),
        (runLoop env fuel fs s).2.2 = .crashed e2 →
        e2 = .structError ∨ e2 = .unicodeDecodeError) := by
  refine ⟨?_, ?_, ?_, ?_, ?_, ?_, ?_⟩
  · intro h1 h2
    rcases ho : open_recordings_folder env fs
      (pyGetD kvs "outputDir" (.str "recordings")) with ⟨fs2, res⟩
    rw [ho] at h2
    simp only at h2
    subst h2
    simp [dispatchMsg, h1, ho]
  · intro h1 h2
    simp [dispatchMsg, h1, h2]
  · intro h1 h2
    simp [dispatchMsg, h1, h2]
  · intro h1 h2
    simp [dispatchMsg, h1, h2]
  · intro h1 h2 h3
    simp [dispatchMsg, h1, h2, h3]
  · intro fuel s rest sent hr hk
    rw [runLoop, hr]
    dsimp only
    rw [if_neg (by simp [hk])]
  · exact fun fuel s e2 h => runLoop_crash_transport env fuel fs s e2 h

/-- Witness for C5 (amended): a missing folder on `open-folder` is
answered with the typed error reply. -/
theorem dispatch_errors_recovered_inst :
    dispatchMsg envDemo fsEmpty [("command", .str "open-folder"), ("path", .str "x")] =
      (fsEmpty, [mkError "Failed to open saved folder: Folder does not exist: x"]) :=
  (dispatch_errors_recovered envDemo fsEmpty
    [("command", .str "open-folder"), ("path", .str "x")]
    (.fileNotFoundError "Folder does not exist: x")).2.1 rfl rfl

/-- Counterexample to C5 as stated: a well-formed frame whose payload is
the single byte 0xFF (not valid UTF-8) aborts the host loop even though
the stream is still open (a further complete frame follows unread). -/
theorem loop_dies_on_invalid_utf8 :
    runHost envDemo fsEmpty (writeFrame [255] ++ writeFrame [123, 125]) =
      (fsEmpty, [statusStarted, statusModelReady], .crashed .unicodeDecodeError) :=
  rfl


/-- C7 (amended): for an implicit transcription message whose external
chain succeeds and whose save flag is truthy, the dispatcher persists the
bundle under the default root "recordings" whether or not the message
carries an `outputDir` field — the field is never forwarded to
`transcribe_audio_chunk`, whose `output_dir` argument is left at its
default. The saved folder therefore always sits under "recordings". -/
theorem audio_chunk_output_dir_ignored (env : Env) (fs : Fs)
    (kvs : List (String × JVal)) (bs : List Nat) (w : Pcm)
    (rd : List (String × JVal)) (tx : String)
    (h1 : getCmd kvs = none) (h2 : hasKey kvs "audioChunk" = true)
    (h3 : truthy (pyGetD kvs "saveToDisk" (.bool true)) = true)
    (h4 : env.b64decode (pyGetD kvs "audioChunk" .null) = .ok bs)
    (h5 : env.convertWebmToWav bs = .ok w)
    (h6 : env.modelTranscribe w = .ok rd)
    (h7 : pyGet rd "text" = some (.str tx)) :
    let ft := if pyStrip tx = "" then "[Empty]" else pyStrip tx
    let r := save_recording_bundle bs ft "recordings" (pyGetStr kvs "tabTitle")
      (pyGetStr kvs "tabUUID") (pyGetD kvs "tabId" .null)
      (pyGetD kvs "tabURL" .null) env.timestamp env.token env.nowIso fs
    dispatchMsg env fs kvs =
      (r.1, [mkStatus ("Saved audio & transcript to " ++ pathToStr r.2.folder),
             .obj [("type", .str "result"), ("text", .str ft),
                   ("savedPaths", renderSaveResult r.2)]])
    ∧ r.2.folder.head? = some "recordings" := by
  have ht := transcribe_chain env fs (pyGetD kvs "audioChunk" .null)
    (truthy (pyGetD kvs "saveToDisk" (.bool true))) "recordings"
    (pyGetStr kvs "tabTitle") (pyGetStr kvs "tabUUID")
    (pyGetD kvs "tabId" .null) (pyGetD kvs "tabURL" .null)
    bs w rd tx h4 h5 h6 h7
  rw [h3, if_pos rfl] at ht
  constructor
  · simp [dispatchMsg, h1, h2, h3, ht]
  · have hs : strToPath "recordings" = ["recordings"] := rfl
    by_cases hu : truthyStr (pyGetStr kvs "tabUUID") = true <;>
      simp [save_recording_bundle, hu, hs]

/-- Witness for C7 (amended): a message carrying `outputDir = "custom"`
still yields a bundle folder under "recordings". -/
theorem audio_chunk_output_dir_ignored_inst :
    ((save_recording_bundle [65, 66, 67] "hi" "recordings" none none JVal.null
        JVal.null "20260101-120000" "abc123" "2026-01-01T12:00:00Z"
        fsEmpty).2).folder.head? = some "recordings" :=
  (audio_chunk_output_dir_ignored envDemo fsEmpty
    [("audioChunk", .str "QUJD"), ("outputDir", .str "custom"),
     ("saveToDisk", .bool true)] [65, 66, 67] ([] : Pcm)
    [("text", .str "hi")] "hi" rfl rfl rfl rfl rfl rfl rfl).2

/-- Counterexample to C7 as stated: dispatching an implicit transcription
message with `outputDir = "custom"` and the save flag set creates no
directory under "custom"; the audio lands under "recordings". -/
theorem audio_chunk_custom_dir_unused :
    ((dispatchMsg envDemo fsEmpty
        [("audioChunk", JVal.str "QUJD"), ("outputDir", JVal.str "custom"),
         ("saveToDisk", JVal.bool true)]).1.dirs.all
      (fun p => p.head? != some "custom")) = true
    ∧ fsRead ["recordings", "recording-20260101-120000-abc123", "audio.webm"]
        (dispatchMsg envDemo fsEmpty
          [("audioChunk", JVal.str "QUJD"), ("outputDir", JVal.str "custom"),
           ("saveToDisk", JVal.bool true)]).1 = some (.bin [65, 66, 67]) := by
  constructor
  · rfl
  · rfl

/-- C9: when the transcription capability returns text that strips to
empty, the final transcript text is exactly "[Empty]": it is the text of
the `result` reply and the exact contents of the persisted
`transcript.txt`. -/
theorem empty_transcript_placeholder (env : Env) (fs : Fs)
    (kvs : List (String × JVal)) (bs : List Nat) (w : Pcm)
    (rd : List (String × JVal)) (tx : String)
    (h1 : getCmd kvs = none) (h2 : hasKey kvs "audioChunk" = true)
    (h3 : truthy (pyGetD kvs "saveToDisk" (.bool true)) = true)
    (h4 : env.b64decode (pyGetD kvs "audioChunk" .null) = .ok bs)
    (h5 : env.convertWebmToWav bs = .ok w)
    (h6 : env.modelTranscribe w = .ok rd)
    (h7 : pyGet rd "text" = some (.str tx))
    (h8 : pyStrip tx = "") :
    ∃ (sp : SaveResult) (fs2 : Fs),
      dispatchMsg env fs kvs =
        (fs2, [mkStatus ("Saved audio & transcript to " ++ pathToStr sp.folder),
               .obj [("type", .str "result"), ("text", .str "[Empty]"),
                     ("savedPaths", renderSaveResult sp)]])
      ∧ fsRead sp.text fs2 = some (.txt "[Empty]") := by
  have ht := transcribe_chain env fs (pyGetD kvs "audioChunk" .null)
    (truthy (pyGetD kvs "saveToDisk" (.bool true))) "recordings"
    (pyGetStr kvs "tabTitle") (pyGetStr kvs "tabUUID")
    (pyGetD kvs "tabId" .null) (pyGetD kvs "tabURL" .null)
    bs w rd tx h4 h5 h6 h7
  rw [h3, if_pos rfl] at ht
  rw [h8, if_pos rfl] at ht
  refine ⟨(save_recording_bundle bs "[Empty]" "recordings" (pyGetStr kvs "tabTitle")
      (pyGetStr kvs "tabUUID") (pyGetD kvs "tabId" .null)
      (pyGetD kvs "tabURL" .null) env.timestamp env.token env.nowIso fs).2,
    (save_recording_bundle bs "[Empty]" "recordings" (pyGetStr kvs "tabTitle")
      (pyGetStr kvs "tabUUID") (pyGetD kvs "tabId" .null)
      (pyGetD kvs "tabURL" .null) env.timestamp env.token env.nowIso fs).1, ?_, ?_⟩
  · simp [dispatchMsg, h1, h2, h3, ht]
  · exact (save_bundle_facts bs "[Empty]" "recordings" (pyGetStr kvs "tabTitle")
      (pyGetStr kvs "tabUUID") (pyGetD kvs "tabId" .null)
      (pyGetD kvs "tabURL" .null) env.timestamp env.token env.nowIso
      fs).2.2.2.2.2.2

/-- Witness for C9: the whitespace-returning model yields a "[Empty]"
result reply and a "[Empty]" transcript file. -/
theorem empty_transcript_placeholder_inst :
    ∃ (sp : SaveResult) (fs2 : Fs),
      dispatchMsg envWs fsEmpty [("audioChunk", JVal.str "QUJD")] =
        (fs2, [mkStatus ("Saved audio & transcript to " ++ pathToStr sp.folder),
               .obj [("type", .str "result"), ("text", .str "[Empty]"),
                     ("savedPaths", renderSaveResult sp)]])
      ∧ fsRead sp.text fs2 = some (.txt "[Empty]") :=
  empty_transcript_placeholder envWs fsEmpty [("audioChunk", .str "QUJD")]
    [65, 66, 67] ([] : Pcm) [("text", .str "   ")] "   "
    rfl rfl rfl rfl rfl rfl rfl rfl

end WhisperHost


